import Mathlib

/-
Shallow embedding of the authenticated HTTP client of dojobeacon-admin:
the axios request/response interceptors of src/lib/axiosInstance.ts and the
session store of src/stores/authStore.ts.

The event loop is single threaded: each interceptor invocation runs
synchronously up to its first suspension point.  We model the synchronous
part of the 401 handler as a pure step `responseOnRejected` on the shared
interceptor state, and the continuation that runs when the awaited refresh
call settles as `completeRefreshSuccess` / `completeRefreshFailure`.
-/

namespace DojoBeacon

/-- A user profile as held by the auth store (authStore.ts, interface User). -/
structure User where
  id : String
  name : String
  email : String
  role : Option String
  deriving Repr, DecidableEq

/-- The session slice of the zustand auth store (authStore.ts):
`user`, `accessToken`, `refreshToken`; `null` is `none`. -/
structure AuthState where
  user : Option User
  accessToken : Option String
  refreshToken : Option String
  deriving Repr, DecidableEq

/-- `logout` of authStore.ts: `set({ user: null, accessToken: null, refreshToken: null })`. -/
def logout (s : AuthState) : AuthState :=
  { s with user := none, accessToken := none, refreshToken := none }

/-- `setTokens` of authStore.ts: `set({ accessToken, refreshToken })`;
the `accessToken` parameter is a string, `refreshToken` may be null. -/
def setTokens (s : AuthState) (accessToken : String) (refreshToken : Option String) : AuthState :=
  { s with accessToken := some accessToken, refreshToken := refreshToken }

/-- JavaScript truthiness of a `string | null` value: truthy iff non-null
and non-empty. -/
def strTruthy : Option String → Bool
  | none => false
  | some t => t != ""

/-- Request headers: the `Authorization` entry plus the remaining entries. -/
structure Headers where
  authorization : Option String
  rest : List (String × String)
  deriving Repr, DecidableEq

/-- An axios request config (`InternalAxiosRequestConfig & { _retry?: boolean }`).
The headers object is optional because the source guards on `config.headers`;
an absent `_retry` field is `false`. -/
structure RequestConfig where
  url : String
  headers : Option Headers
  _retry : Bool
  deriving Repr, DecidableEq

/-- An HTTP response as seen by the success interceptor. -/
structure Response where
  status : Nat
  body : String
  deriving Repr, DecidableEq

/-- An `AxiosError`: `error.response?.status` (none when no response arrived)
and `error.config`, the original request. -/
structure AxiosErrorModel where
  status : Option Nat
  config : RequestConfig
  deriving Repr, DecidableEq

/-- The module-level mutable state of axiosInstance.ts: `isRefreshing`,
`failedQueue`, together with the auth store the interceptor reads and writes. -/
structure ClientState where
  isRefreshing : Bool
  failedQueue : List RequestConfig
  store : AuthState
  deriving Repr, DecidableEq

/-- What happens to one queued waiter when `processQueue` runs: its promise is
resolved with a token, rejected with an error, or left pending (neither branch
of `processQueue` fires). -/
inductive WaiterOutcome where
  | resolved (token : String)
  | rejected (err : AxiosErrorModel)
  | suspended
  deriving Repr, DecidableEq

/-- `processQueue(error, token)` of axiosInstance.ts: for each queued promise,
reject it when `error` is truthy, otherwise resolve it when `token` is truthy
(non-null, non-empty), otherwise leave it pending; then empty the queue.
Returns the per-waiter outcomes in queue order, and the new (empty) queue. -/
def processQueue (queue : List RequestConfig) (error : Option AxiosErrorModel)
    (token : Option String) : List (RequestConfig × WaiterOutcome) × List RequestConfig :=
  (queue.map (fun prom =>
    (prom,
      match error with
      | some e => WaiterOutcome.rejected e
      | none =>
        match token with
        | some t => if t != "" then WaiterOutcome.resolved t else WaiterOutcome.suspended
        | none => WaiterOutcome.suspended)),
   [])

/-- The request interceptor (axiosInstance.ts lines 32-38): when the stored
access token and the config's headers are both truthy, set
`Authorization: Bearer <token>`; otherwise forward the config unmodified. -/
def requestInterceptor (store : AuthState) (config : RequestConfig) : RequestConfig :=
  match store.accessToken with
  | some t =>
    if t != "" then
      match config.headers with
      | some h => { config with headers := some { h with authorization := some ("Bearer " ++ t) } }
      | none => config
    else config
  | none => config

/-- The response success interceptor `(res) => res`. -/
def responseOnFulfilled (res : Response) : Response := res

/-- `if (originalRequest.headers) originalRequest.headers.Authorization = Bearer token`
(axiosInstance.ts lines 58-60 and 83-85). -/
def setAuthHeader (req : RequestConfig) (token : String) : RequestConfig :=
  match req.headers with
  | some h => { req with headers := some { h with authorization := some ("Bearer " ++ token) } }
  | none => req

/-- Result of the synchronous part of the response error interceptor:
the request was pushed onto `failedQueue`; or it became the trigger of a new
refresh call (carrying the request with `_retry` set and the captured refresh
token); or the error was surfaced via `Promise.reject`. -/
inductive SyncResult where
  | enqueued
  | startRefresh (request : RequestConfig) (refreshToken : String)
  | rejected (error : AxiosErrorModel)
  deriving Repr, DecidableEq

/-- The synchronous prefix of the response error interceptor
(axiosInstance.ts lines 42-67 and 98): on a 401 for a not-yet-retried request
with a truthy stored refresh token, either join the queue (when `isRefreshing`)
or mark the request retried, set `isRefreshing`, and start the refresh call;
otherwise reject with the original error. -/
def responseOnRejected (st : ClientState) (error : AxiosErrorModel) :
    ClientState × SyncResult :=
  let originalRequest := error.config
  let refreshToken := st.store.refreshToken
  if error.status == some 401 && !originalRequest._retry && strTruthy refreshToken then
    if st.isRefreshing then
      ({ st with failedQueue := st.failedQueue ++ [originalRequest] }, SyncResult.enqueued)
    else
      ({ st with isRefreshing := true },
        SyncResult.startRefresh { originalRequest with _retry := true } (refreshToken.getD ""))
  else
    (st, SyncResult.rejected error)

/-- Outcome of the try branch after the refresh POST succeeded
(axiosInstance.ts lines 78-86). -/
structure SuccessStep where
  state : ClientState
  queueOutcomes : List (RequestConfig × WaiterOutcome)
  replayRequest : RequestConfig
  deriving Repr, DecidableEq

/-- Continuation after a successful refresh call: `setTokens(newAccessToken,
refreshToken)` with the refresh token captured when the handler started,
`processQueue(null, newAccessToken)`, `isRefreshing = false`, then resend the
triggering request with the updated Authorization header. -/
def completeRefreshSuccess (st : ClientState) (refreshToken : String)
    (originalRequest : RequestConfig) (newAccessToken : String) : SuccessStep :=
  let store := setTokens st.store newAccessToken (some refreshToken)
  let out := processQueue st.failedQueue none (some newAccessToken)
  { state := { isRefreshing := false, failedQueue := out.2, store := store },
    queueOutcomes := out.1,
    replayRequest := setAuthHeader originalRequest newAccessToken }

/-- Outcome of the catch branch after the refresh POST failed
(axiosInstance.ts lines 87-95). -/
structure FailureStep where
  state : ClientState
  queueOutcomes : List (RequestConfig × WaiterOutcome)
  redirectTo : Option String
  callerResult : AxiosErrorModel
  deriving Repr, DecidableEq

/-- Continuation after a failed refresh call: `processQueue(err, null)`,
`isRefreshing = false`, `logout()`, navigate to `/login`, and
`Promise.reject(err)` where `err` is the refresh call's error. -/
def completeRefreshFailure (st : ClientState) (err : AxiosErrorModel) : FailureStep :=
  let out := processQueue st.failedQueue (some err) none
  { state := { isRefreshing := false, failedQueue := out.2, store := logout st.store },
    queueOutcomes := out.1,
    redirectTo := some ("/login"),
    callerResult := err }

/-- What a queued waiter's continuation does when its promise settles
(axiosInstance.ts lines 54-63): on resolve set the Authorization header and
replay `api(originalRequest)`; on reject propagate the error; a promise that
never settles leaves the caller pending. -/
inductive ResumeResult where
  | replay (request : RequestConfig)
  | failed (err : AxiosErrorModel)
  | pending
  deriving Repr, DecidableEq

/-- Resume a queued waiter from its `processQueue` outcome. -/
def resumeWaiter (originalRequest : RequestConfig) : WaiterOutcome → ResumeResult
  | WaiterOutcome.resolved token => ResumeResult.replay (setAuthHeader originalRequest token)
  | WaiterOutcome.rejected err => ResumeResult.failed err
  | WaiterOutcome.suspended => ResumeResult.pending

/-- Run the synchronous part of the error interceptor on a batch of 401 events
arriving back to back on the event loop, threading the shared state. -/
def handleAll (st : ClientState) : List AxiosErrorModel → ClientState × List SyncResult
  | [] => (st, [])
  | e :: es =>
    let first := responseOnRejected st e
    let restOut := handleAll first.1 es
    (restOut.1, first.2 :: restOut.2)

/-- Number of refresh-endpoint calls started by a batch of interceptor runs. -/
def refreshCallCount (rs : List SyncResult) : Nat :=
  rs.countP (fun r =>
    match r with
    | SyncResult.startRefresh _ _ => true
    | _ => false)

/-! Concrete scenario data used by witnesses and counterexamples. -/

def wUser : User :=
  { id := "u1", name := "Admin", email := "admin@dojobeacon.test", role := some ("admin") }

def wHeaders : Headers :=
  { authorization := none, rest := [("ngrok-skip-browser-warning", "true")] }

def wStore : AuthState :=
  { user := some wUser, accessToken := some ("old"), refreshToken := some ("rt0") }

def wStoreNoRt : AuthState :=
  { user := some wUser, accessToken := some ("old"), refreshToken := none }

def wStoreEmptyTok : AuthState :=
  { user := some wUser, accessToken := some (""), refreshToken := some ("rt0") }

def wReqA : RequestConfig := { url := "/subjects", headers := some wHeaders, _retry := false }

def wReqB : RequestConfig := { url := "/chapters", headers := some wHeaders, _retry := false }

def wReqC : RequestConfig := { url := "/tests", headers := some wHeaders, _retry := false }

def wErrA : AxiosErrorModel := { status := some 401, config := wReqA }

def wErrB : AxiosErrorModel := { status := some 401, config := wReqB }

def wErrC : AxiosErrorModel := { status := some 401, config := wReqC }

def wErrRefresh : AxiosErrorModel :=
  { status := some 500,
    config := { url := "/auth/refresh-token", headers := some wHeaders, _retry := false } }

def wIdle : ClientState := { isRefreshing := false, failedQueue := [], store := wStore }

def wIdleNoRt : ClientState := { isRefreshing := false, failedQueue := [], store := wStoreNoRt }

def wRefreshing : ClientState := { isRefreshing := true, failedQueue := [], store := wStore }

def wQueued : ClientState := { isRefreshing := true, failedQueue := [wReqC], store := wStore }

def wTrigger : RequestConfig := { wReqA with _retry := true }

def wReqRetried : RequestConfig := { url := "/subjects", headers := some wHeaders, _retry := true }

def wErrRetried : AxiosErrorModel := { status := some 401, config := wReqRetried }

def wErrTrig2 : AxiosErrorModel := { status := some 401, config := wTrigger }

def wReqB2 : RequestConfig := setAuthHeader wReqB ("new")

def wErrB2 : AxiosErrorModel := { status := some 401, config := wReqB2 }

def wIdle2 : ClientState :=
  { isRefreshing := false, failedQueue := [], store := setTokens wStore ("new") (some ("rt0")) }

/-! Helper lemmas shared by the claim theorems. -/

theorem map_fst_pairs (q : List RequestConfig) (f : RequestConfig → WaiterOutcome) :
    (q.map (fun c => (c, f c))).map Prod.fst = q := by
  induction q with
  | nil => rfl
  | cons c q ih => simp [ih]

theorem processQueue_resolved (q : List RequestConfig) (t : String) (ht : t ≠ "") :
    processQueue q none (some t) = (q.map (fun c => (c, WaiterOutcome.resolved t)), []) := by
  simp [processQueue, ht]

theorem processQueue_rejectedAll (q : List RequestConfig) (e : AxiosErrorModel) :
    processQueue q (some e) none = (q.map (fun c => (c, WaiterOutcome.rejected e)), []) := by
  simp [processQueue]

theorem processQueue_falsy (q : List RequestConfig) :
    processQueue q none (some ("")) = (q.map (fun c => (c, WaiterOutcome.suspended)), []) := by
  simp [processQueue]

theorem responseOnRejected_retried (st : ClientState) (e : AxiosErrorModel)
    (h : e.config._retry = true) :
    responseOnRejected st e = (st, SyncResult.rejected e) := by
  simp [responseOnRejected, h]

theorem responseOnRejected_enqueue (st : ClientState) (e : AxiosErrorModel)
    (h1 : e.status = some 401) (h2 : e.config._retry = false)
    (h3 : strTruthy st.store.refreshToken = true) (h4 : st.isRefreshing = true) :
    responseOnRejected st e
      = ({ st with failedQueue := st.failedQueue ++ [e.config] }, SyncResult.enqueued) := by
  simp [responseOnRejected, h1, h2, h3, h4]

theorem responseOnRejected_trigger (st : ClientState) (e : AxiosErrorModel) (rt : String)
    (h1 : e.status = some 401) (h2 : e.config._retry = false)
    (h3 : st.store.refreshToken = some rt) (h4 : rt ≠ "") (h5 : st.isRefreshing = false) :
    responseOnRejected st e
      = ({ st with isRefreshing := true },
         SyncResult.startRefresh { e.config with _retry := true } rt) := by
  simp [responseOnRejected, h1, h2, h3, h4, h5, strTruthy]

theorem handleAll_enqueues (es : List AxiosErrorModel) :
    ∀ st : ClientState, st.isRefreshing = true → strTruthy st.store.refreshToken = true →
    (∀ x ∈ es, x.status = some 401 ∧ x.config._retry = false) →
    handleAll st es
      = ({ st with failedQueue := st.failedQueue ++ es.map (fun x => x.config) },
         es.map (fun _ => SyncResult.enqueued)) := by
  induction es with
  | nil => intro st h1 h2 h3; simp [handleAll]
  | cons e es ih =>
    intro st h1 h2 h3
    have he := h3 e (List.mem_cons_self e es)
    have hrest : ∀ x ∈ es, x.status = some 401 ∧ x.config._retry = false :=
      fun x hx => h3 x (List.mem_cons_of_mem e hx)
    simp only [handleAll, responseOnRejected_enqueue st e he.1 he.2 h2 h1]
    rw [ih { st with failedQueue := st.failedQueue ++ [e.config] } h1 h2 hrest]
    simp [List.append_assoc]

theorem map_pair_map (es : List AxiosErrorModel) (t : String) :
    (es.map (fun x => x.config)).map (fun c => (c, WaiterOutcome.resolved t))
      = es.map (fun x => (x.config, WaiterOutcome.resolved t)) := by
  induction es with
  | nil => rfl
  | cons a l ih => simp [ih]

theorem map_pair_suspended (es : List AxiosErrorModel) :
    (es.map (fun x => x.config)).map (fun c => (c, WaiterOutcome.suspended))
      = es.map (fun x => (x.config, WaiterOutcome.suspended)) := by
  induction es with
  | nil => rfl
  | cons a l ih => simp [ih]

theorem map_pair_rejected (es : List AxiosErrorModel) (err : AxiosErrorModel) :
    (es.map (fun x => x.config)).map (fun c => (c, WaiterOutcome.rejected err))
      = es.map (fun x => (x.config, WaiterOutcome.rejected err)) := by
  induction es with
  | nil => rfl
  | cons a l ih => simp [ih]

theorem startRefresh_inv (st st2 : ClientState) (e : AxiosErrorModel)
    (req : RequestConfig) (rt : String)
    (h : responseOnRejected st e = (st2, SyncResult.startRefresh req rt)) :
    req._retry = true ∧ st.store.refreshToken = some rt := by
  cases hrt : st.store.refreshToken with
  | none =>
    simp [responseOnRejected, hrt, strTruthy] at h
  | some s =>
    simp only [responseOnRejected, hrt] at h
    split at h
    · split at h
      · exact absurd h (by simp)
      · injection h with hA hB
        injection hB with hr1 hr2
        refine ⟨?_, ?_⟩
        · rw [← hr1]
        · have hs : s = rt := by simpa using hr2
          rw [hs]
    · exact absurd h (by simp)

theorem refreshCallCount_enqueued (es : List AxiosErrorModel) :
    refreshCallCount (es.map (fun _ => SyncResult.enqueued)) = 0 := by
  induction es with
  | nil => rfl
  | cons e es ih =>
    simp only [List.map_cons, refreshCallCount, List.countP_cons] at ih ⊢
    simp [ih]

/-! Claim theorems. -/

/-- C3: FIFO waiter resolution — for every queue of waiters accumulated during a
single in-flight refresh, a successful refresh resolves them, and a failed
refresh rejects them, in exactly their enqueue order (the outcome list of
`processQueue` preserves the queue order), and the queue is emptied. -/
theorem fifoWaiterResolution (q : List RequestConfig) (t : String) (e : AxiosErrorModel)
    (ht : t ≠ "") :
    (processQueue q none (some t)).1 = q.map (fun c => (c, WaiterOutcome.resolved t)) ∧
    (processQueue q (some e) none).1 = q.map (fun c => (c, WaiterOutcome.rejected e)) ∧
    (processQueue q none (some t)).1.map Prod.fst = q ∧
    (processQueue q (some e) none).1.map Prod.fst = q ∧
    (processQueue q none (some t)).2 = [] ∧
    (processQueue q (some e) none).2 = [] := by
  rw [processQueue_resolved q t ht, processQueue_rejectedAll q e]
  exact ⟨rfl, rfl, map_fst_pairs q _, map_fst_pairs q _, rfl, rfl⟩

/-- Witness for C3 at the concrete queue [A, B, C]. -/
theorem fifoWaiterResolution_witness :
    (processQueue [wReqA, wReqB, wReqC] none (some ("new"))).1
      = [wReqA, wReqB, wReqC].map (fun c => (c, WaiterOutcome.resolved ("new"))) ∧
    (processQueue [wReqA, wReqB, wReqC] (some wErrRefresh) none).1
      = [wReqA, wReqB, wReqC].map (fun c => (c, WaiterOutcome.rejected wErrRefresh)) ∧
    (processQueue [wReqA, wReqB, wReqC] none (some ("new"))).1.map Prod.fst
      = [wReqA, wReqB, wReqC] ∧
    (processQueue [wReqA, wReqB, wReqC] (some wErrRefresh) none).1.map Prod.fst
      = [wReqA, wReqB, wReqC] ∧
    (processQueue [wReqA, wReqB, wReqC] none (some ("new"))).2 = [] ∧
    (processQueue [wReqA, wReqB, wReqC] (some wErrRefresh) none).2 = [] :=
  fifoWaiterResolution [wReqA, wReqB, wReqC] ("new") wErrRefresh (by decide)

/-- C4: Refresh-absent short-circuit — a 401 while no refresh token is stored
is surfaced to the caller immediately and unchanged, with the interceptor state
untouched, and no call to the refresh endpoint is started. -/
theorem refreshAbsentShortCircuit (st : ClientState) (e : AxiosErrorModel)
    (_hs : e.status = some 401) (hr : st.store.refreshToken = none) :
    responseOnRejected st e = (st, SyncResult.rejected e) ∧
    refreshCallCount [(responseOnRejected st e).2] = 0 := by
  have h : responseOnRejected st e = (st, SyncResult.rejected e) := by
    simp [responseOnRejected, hr, strTruthy]
  refine ⟨h, ?_⟩
  rw [h]
  rfl

/-- Witness for C4: a 401 on /subjects with no stored refresh token. -/
theorem refreshAbsentShortCircuit_witness :
    responseOnRejected wIdleNoRt wErrA = (wIdleNoRt, SyncResult.rejected wErrA) ∧
    refreshCallCount [(responseOnRejected wIdleNoRt wErrA).2] = 0 :=
  refreshAbsentShortCircuit wIdleNoRt wErrA rfl rfl

/-- C5: Failure cleanup — when the refresh call fails, the session is cleared
(accessToken, refreshToken and user all become null), every queued waiter is
rejected with the refresh failure, the refresh-in-progress flag returns to
false with an empty queue, and a navigation to /login is triggered. -/
theorem failureCleanup (st : ClientState) (err : AxiosErrorModel) :
    (completeRefreshFailure st err).state.store.accessToken = none ∧
    (completeRefreshFailure st err).state.store.refreshToken = none ∧
    (completeRefreshFailure st err).state.store.user = none ∧
    (completeRefreshFailure st err).queueOutcomes
      = st.failedQueue.map (fun c => (c, WaiterOutcome.rejected err)) ∧
    (completeRefreshFailure st err).state.isRefreshing = false ∧
    (completeRefreshFailure st err).state.failedQueue = [] ∧
    (completeRefreshFailure st err).redirectTo = some ("/login") := by
  simp [completeRefreshFailure, processQueue, logout]

/-- C6 counterexample: the 401 on /subjects triggers the refresh; the refresh
call then fails with its own error (status 500); the triggering caller
receives the refresh call's error, not the original 401 error, so the claim
that the caller receives the original 401's failure is false. -/
theorem refreshFailurePropagation_cex :
    (responseOnRejected wIdle wErrA).2 = SyncResult.startRefresh wTrigger ("rt0") ∧
    (completeRefreshFailure (responseOnRejected wIdle wErrA).1 wErrRefresh).callerResult
      = wErrRefresh ∧
    (completeRefreshFailure (responseOnRejected wIdle wErrA).1 wErrRefresh).callerResult
      ≠ wErrA := by
  decide

/-- C6 amended: when the refresh call fails, the caller whose request triggered
the refresh receives the refresh call's failure (the same error delivered to
every queued waiter), and the session store is cleared before that rejection is
delivered. -/
theorem refreshFailurePropagation_amended (st : ClientState) (err : AxiosErrorModel) :
    (completeRefreshFailure st err).callerResult = err ∧
    (completeRefreshFailure st err).state.store = logout st.store ∧
    (completeRefreshFailure st err).queueOutcomes
      = st.failedQueue.map (fun c => (c, WaiterOutcome.rejected err)) := by
  refine ⟨rfl, rfl, ?_⟩
  simp [completeRefreshFailure, processQueue]

/-- C8 counterexample: the store holds the non-null access token "" (empty
string); the request interceptor forwards the config unmodified, with no
Authorization header attached, so the claim that every non-null stored token is
attached as a Bearer header is false. -/
theorem tokenAttachment_cex :
    wStoreEmptyTok.accessToken = some ("") ∧
    requestInterceptor wStoreEmptyTok wReqA = wReqA ∧
    (requestInterceptor wStoreEmptyTok wReqA).headers = some wHeaders := by
  decide

/-- C8 amended: a request with a headers object is sent with
`Authorization: Bearer <accessToken>` when the stored access token is non-null
and non-empty; with a null or empty stored token the request is forwarded
unmodified; and on HTTP success the response is returned unchanged. -/
theorem tokenAttachment_amended :
    (∀ (store : AuthState) (config : RequestConfig) (t : String) (h : Headers),
        store.accessToken = some t → t ≠ "" → config.headers = some h →
        requestInterceptor store config
          = { config with headers := some { h with authorization := some ("Bearer " ++ t) } }) ∧
    (∀ (store : AuthState) (config : RequestConfig),
        store.accessToken = none → requestInterceptor store config = config) ∧
    (∀ (store : AuthState) (config : RequestConfig),
        store.accessToken = some ("") → requestInterceptor store config = config) ∧
    ∀ res : Response, responseOnFulfilled res = res := by
  refine ⟨?_, ?_, ?_, fun res => rfl⟩
  · intro store config t h h1 h2 h3
    simp [requestInterceptor, h1, h2, h3]
  · intro store config h1
    simp [requestInterceptor, h1]
  · intro store config h1
    simp [requestInterceptor, h1]

/-- Witness for C8 amended: token "old" is attached; after logout the request
passes through unmodified. -/
theorem tokenAttachment_amended_witness :
    requestInterceptor wStore wReqA
      = { wReqA with headers := some { wHeaders with authorization := some ("Bearer " ++ "old") } } ∧
    requestInterceptor (logout wStore) wReqA = wReqA :=
  ⟨tokenAttachment_amended.1 wStore wReqA ("old") wHeaders rfl (by decide) rfl,
   tokenAttachment_amended.2.1 (logout wStore) wReqA rfl⟩

/-- C10: a refresh that succeeds with a falsy (empty) access token runs
`processQueue(null, token)` with both branches dead: every queued waiter is
neither resolved nor rejected (its caller stays pending forever), while the
queue is emptied and the refresh-in-progress flag returns to false. -/
theorem falsyTokenSuspendsWaiters (st : ClientState) (rt : String) (req : RequestConfig) :
    (completeRefreshSuccess st rt req ("")).queueOutcomes
      = st.failedQueue.map (fun c => (c, WaiterOutcome.suspended)) ∧
    (completeRefreshSuccess st rt req ("")).state.failedQueue = [] ∧
    (completeRefreshSuccess st rt req ("")).state.isRefreshing = false ∧
    ∀ c : RequestConfig, resumeWaiter c WaiterOutcome.suspended = ResumeResult.pending := by
  refine ⟨?_, rfl, rfl, fun c => rfl⟩
  simp [completeRefreshSuccess, processQueue]

/-- C1 counterexample: in the claim's exact scenario — three concurrent 401s
from the idle state, one refresh call started, two requests queued — a refresh
call that succeeds with the empty-string access token leaves both queued
requests suspended: they are never resolved with the refresh result, so the
claim that all N requests eventually resolve using the result of the single
refresh call is false. -/
theorem atMostOneRefresh_cex :
    (handleAll wIdle (wErrA :: [wErrB, wErrC])).2
      = SyncResult.startRefresh wTrigger ("rt0")
          :: [SyncResult.enqueued, SyncResult.enqueued] ∧
    refreshCallCount (handleAll wIdle (wErrA :: [wErrB, wErrC])).2 = 1 ∧
    (completeRefreshSuccess (handleAll wIdle (wErrA :: [wErrB, wErrC])).1 ("rt0")
        wTrigger ("")).queueOutcomes
      = [(wReqB, WaiterOutcome.suspended), (wReqC, WaiterOutcome.suspended)] ∧
    resumeWaiter wReqB WaiterOutcome.suspended = ResumeResult.pending ∧
    resumeWaiter wReqC WaiterOutcome.suspended = ResumeResult.pending ∧
    (completeRefreshSuccess (handleAll wIdle (wErrA :: [wErrB, wErrC])).1 ("rt0")
        wTrigger ("")).queueOutcomes
      ≠ [(wReqB, WaiterOutcome.resolved ("")), (wReqC, WaiterOutcome.resolved (""))] := by
  decide

/-- C1 amended: for N back-to-back 401s on not-yet-retried requests while no
refresh is in flight and a non-empty refresh token is stored, the first 401
marks its request and starts the single refresh (setting the
refresh-in-progress flag), every later 401 joins the pending queue, and exactly
one refresh-endpoint call is made; all N requests then settle from the result
of that single call only when it yields a non-empty access token — every queued
request is resolved with it and the trigger replayed with it — while a refresh
that succeeds with an empty (falsy) token leaves every queued request suspended
forever, and a failed refresh rejects every queued request with the refresh
error, which the trigger's caller also receives. -/
theorem atMostOneRefresh_amended (st : ClientState) (e : AxiosErrorModel)
    (es : List AxiosErrorModel) (rt : String)
    (hIdle : st.isRefreshing = false) (hQ : st.failedQueue = [])
    (hRt : st.store.refreshToken = some rt) (hRtNe : rt ≠ "")
    (hS : e.status = some 401) (hR : e.config._retry = false)
    (hAll : ∀ x ∈ es, x.status = some 401 ∧ x.config._retry = false) :
    (handleAll st (e :: es)).2
      = SyncResult.startRefresh { e.config with _retry := true } rt
          :: es.map (fun _ => SyncResult.enqueued) ∧
    refreshCallCount (handleAll st (e :: es)).2 = 1 ∧
    (handleAll st (e :: es)).1.isRefreshing = true ∧
    (handleAll st (e :: es)).1.failedQueue = es.map (fun x => x.config) ∧
    (∀ t : String, t ≠ "" →
      (completeRefreshSuccess (handleAll st (e :: es)).1 rt
          { e.config with _retry := true } t).queueOutcomes
        = es.map (fun x => (x.config, WaiterOutcome.resolved t)) ∧
      (completeRefreshSuccess (handleAll st (e :: es)).1 rt
          { e.config with _retry := true } t).replayRequest
        = setAuthHeader { e.config with _retry := true } t) ∧
    (completeRefreshSuccess (handleAll st (e :: es)).1 rt
        { e.config with _retry := true } ("")).queueOutcomes
      = es.map (fun x => (x.config, WaiterOutcome.suspended)) ∧
    (∀ err : AxiosErrorModel,
      (completeRefreshFailure (handleAll st (e :: es)).1 err).queueOutcomes
        = es.map (fun x => (x.config, WaiterOutcome.rejected err)) ∧
      (completeRefreshFailure (handleAll st (e :: es)).1 err).callerResult = err) := by
  have hTr : strTruthy st.store.refreshToken = true := by simp [strTruthy, hRt, hRtNe]
  have hstep : handleAll st (e :: es)
      = ({ st with isRefreshing := true, failedQueue := st.failedQueue ++ es.map (fun x => x.config) },
         SyncResult.startRefresh { e.config with _retry := true } rt
           :: es.map (fun _ => SyncResult.enqueued)) := by
    simp only [handleAll, responseOnRejected_trigger st e rt hS hR hRt hRtNe hIdle]
    rw [handleAll_enqueues es { st with isRefreshing := true } rfl hTr hAll]
  refine ⟨?_, ?_, ?_, ?_, ?_, ?_, ?_⟩
  · rw [hstep]
  · rw [hstep]
    have h0 := refreshCallCount_enqueued es
    simp only [refreshCallCount, List.countP_cons] at h0 ⊢
    simp [h0]
  · rw [hstep]
  · rw [hstep]
    simp [hQ]
  · intro t ht
    constructor
    · rw [hstep]
      simp [completeRefreshSuccess, hQ,
        processQueue_resolved (es.map (fun x => x.config)) t ht, map_pair_map]
    · rw [hstep]
      rfl
  · rw [hstep]
    simp [completeRefreshSuccess, hQ, processQueue_falsy, map_pair_suspended]
  · intro err
    constructor
    · rw [hstep]
      simp [completeRefreshFailure, hQ, processQueue_rejectedAll, map_pair_rejected]
    · rw [hstep]
      rfl

/-- Witness for C1 amended: three simultaneous 401s on /subjects, /chapters,
/tests from the idle state; one refresh call; with token "new" both joiners are
resolved and the trigger replayed; with token "" both joiners are suspended;
on refresh failure both joiners and the trigger receive the refresh error. -/
theorem atMostOneRefresh_amended_witness :
    (handleAll wIdle (wErrA :: [wErrB, wErrC])).2
      = SyncResult.startRefresh { wErrA.config with _retry := true } ("rt0")
          :: [wErrB, wErrC].map (fun _ => SyncResult.enqueued) ∧
    refreshCallCount (handleAll wIdle (wErrA :: [wErrB, wErrC])).2 = 1 ∧
    (handleAll wIdle (wErrA :: [wErrB, wErrC])).1.isRefreshing = true ∧
    (handleAll wIdle (wErrA :: [wErrB, wErrC])).1.failedQueue
      = [wErrB, wErrC].map (fun x => x.config) ∧
    (completeRefreshSuccess (handleAll wIdle (wErrA :: [wErrB, wErrC])).1 ("rt0")
        { wErrA.config with _retry := true } ("new")).queueOutcomes
      = [wErrB, wErrC].map (fun x => (x.config, WaiterOutcome.resolved ("new"))) ∧
    (completeRefreshSuccess (handleAll wIdle (wErrA :: [wErrB, wErrC])).1 ("rt0")
        { wErrA.config with _retry := true } ("new")).replayRequest
      = setAuthHeader { wErrA.config with _retry := true } ("new") ∧
    (completeRefreshSuccess (handleAll wIdle (wErrA :: [wErrB, wErrC])).1 ("rt0")
        { wErrA.config with _retry := true } ("")).queueOutcomes
      = [wErrB, wErrC].map (fun x => (x.config, WaiterOutcome.suspended)) ∧
    (completeRefreshFailure (handleAll wIdle (wErrA :: [wErrB, wErrC])).1
        wErrRefresh).queueOutcomes
      = [wErrB, wErrC].map (fun x => (x.config, WaiterOutcome.rejected wErrRefresh)) ∧
    (completeRefreshFailure (handleAll wIdle (wErrA :: [wErrB, wErrC])).1
        wErrRefresh).callerResult = wErrRefresh :=
  ⟨(atMostOneRefresh_amended wIdle wErrA [wErrB, wErrC] ("rt0") rfl rfl rfl (by decide)
      rfl rfl (by decide)).1,
   (atMostOneRefresh_amended wIdle wErrA [wErrB, wErrC] ("rt0") rfl rfl rfl (by decide)
      rfl rfl (by decide)).2.1,
   (atMostOneRefresh_amended wIdle wErrA [wErrB, wErrC] ("rt0") rfl rfl rfl (by decide)
      rfl rfl (by decide)).2.2.1,
   (atMostOneRefresh_amended wIdle wErrA [wErrB, wErrC] ("rt0") rfl rfl rfl (by decide)
      rfl rfl (by decide)).2.2.2.1,
   ((atMostOneRefresh_amended wIdle wErrA [wErrB, wErrC] ("rt0") rfl rfl rfl (by decide)
      rfl rfl (by decide)).2.2.2.2.1 ("new") (by decide)).1,
   ((atMostOneRefresh_amended wIdle wErrA [wErrB, wErrC] ("rt0") rfl rfl rfl (by decide)
      rfl rfl (by decide)).2.2.2.2.1 ("new") (by decide)).2,
   (atMostOneRefresh_amended wIdle wErrA [wErrB, wErrC] ("rt0") rfl rfl rfl (by decide)
      rfl rfl (by decide)).2.2.2.2.2.1,
   ((atMostOneRefresh_amended wIdle wErrA [wErrB, wErrC] ("rt0") rfl rfl rfl (by decide)
      rfl rfl (by decide)).2.2.2.2.2.2 wErrRefresh).1,
   ((atMostOneRefresh_amended wIdle wErrA [wErrB, wErrC] ("rt0") rfl rfl rfl (by decide)
      rfl rfl (by decide)).2.2.2.2.2.2 wErrRefresh).2⟩

/-- C2 counterexample: a request that joined the pending queue is never marked
`_retry`; after the refresh succeeds it is replayed with `_retry` still false,
so a second 401 on it starts another refresh instead of being surfaced as a
failure — the claim fails for queue-joiners. -/
theorem noInfiniteRetry_cex :
    (responseOnRejected wRefreshing wErrB).2 = SyncResult.enqueued ∧
    (responseOnRejected wRefreshing wErrB).1.failedQueue = [wReqB] ∧
    resumeWaiter wReqB (WaiterOutcome.resolved ("new")) = ResumeResult.replay wReqB2 ∧
    wReqB2._retry = false ∧
    (responseOnRejected wIdle2 wErrB2).2
      = SyncResult.startRefresh { wReqB2 with _retry := true } ("rt0") ∧
    (responseOnRejected wIdle2 wErrB2).2 ≠ SyncResult.rejected wErrB2 := by
  decide

/-- C2 amended: a request whose config is marked `_retry` has any further 401
surfaced as a failure and is never retried again; the request that triggers a
refresh is so marked, hence a second 401 on its replay is surfaced. A request
that joined the pending queue is not marked and does not enjoy this guarantee
(see the counterexample). -/
theorem noInfiniteRetry_amended :
    (∀ (st : ClientState) (e : AxiosErrorModel), e.config._retry = true →
        responseOnRejected st e = (st, SyncResult.rejected e)) ∧
    (∀ (st st2 : ClientState) (e e2 : AxiosErrorModel) (req : RequestConfig) (rt : String),
        responseOnRejected st e = (st2, SyncResult.startRefresh req rt) →
        e2.config = req →
        ∀ st3 : ClientState, responseOnRejected st3 e2 = (st3, SyncResult.rejected e2)) := by
  refine ⟨fun st e h => responseOnRejected_retried st e h, ?_⟩
  intro st st2 e e2 req rt hstart hcfg st3
  refine responseOnRejected_retried st3 e2 ?_
  rw [hcfg]
  exact (startRefresh_inv st st2 e req rt hstart).1

/-- Witness for C2 amended: an already-retried request's 401 is surfaced, and
the request that triggered a refresh has its replayed 401 surfaced as well. -/
theorem noInfiniteRetry_amended_witness :
    responseOnRejected wIdle wErrRetried = (wIdle, SyncResult.rejected wErrRetried) ∧
    responseOnRejected wIdle2 wErrTrig2 = (wIdle2, SyncResult.rejected wErrTrig2) :=
  ⟨noInfiniteRetry_amended.1 wIdle wErrRetried rfl,
   noInfiniteRetry_amended.2 wIdle { wIdle with isRefreshing := true } wErrA wErrTrig2
     wTrigger ("rt0") (by decide) rfl wIdle2⟩

/-- C7 counterexample: a refresh that succeeds with the empty-string access
token takes the success path, but the queued continuation is left suspended
rather than resolved with the new token, so the claim as stated is false. -/
theorem refreshSuccessFrame_cex :
    (completeRefreshSuccess wQueued ("rt0") wTrigger ("")).queueOutcomes
      = [(wReqC, WaiterOutcome.suspended)] ∧
    (completeRefreshSuccess wQueued ("rt0") wTrigger ("")).queueOutcomes
      ≠ [(wReqC, WaiterOutcome.resolved (""))] := by
  decide

/-- C7 amended: on a successful refresh the store's accessToken becomes the
returned token and the refreshToken is written back to the value captured when
the refresh began (which is the stored value at that moment), the user profile
is untouched, the triggering request is resent with the updated Authorization
header, and every queued continuation is resolved with the new token provided
that token is non-empty (an empty token leaves the waiters suspended). -/
theorem refreshSuccessFrame_amended :
    (∀ (st st2 : ClientState) (e : AxiosErrorModel) (req : RequestConfig) (rt : String),
        responseOnRejected st e = (st2, SyncResult.startRefresh req rt) →
        st.store.refreshToken = some rt) ∧
    (∀ (st : ClientState) (rt t : String) (req : RequestConfig),
        (completeRefreshSuccess st rt req t).state.store.accessToken = some t ∧
        (completeRefreshSuccess st rt req t).state.store.refreshToken = some rt ∧
        (completeRefreshSuccess st rt req t).state.store.user = st.store.user ∧
        (completeRefreshSuccess st rt req t).replayRequest = setAuthHeader req t ∧
        (completeRefreshSuccess st rt req t).state.isRefreshing = false ∧
        (t ≠ "" → (completeRefreshSuccess st rt req t).queueOutcomes
            = st.failedQueue.map (fun c => (c, WaiterOutcome.resolved t)))) := by
  constructor
  · intro st st2 e req rt h
    exact (startRefresh_inv st st2 e req rt h).2
  · intro st rt t req
    refine ⟨rfl, rfl, rfl, rfl, rfl, fun ht => ?_⟩
    simp [completeRefreshSuccess, processQueue_resolved st.failedQueue t ht]

/-- Witness for C7 amended: the refresh began with stored token "rt0";
completion with token "new" updates accessToken, keeps "rt0", keeps the user,
resolves the queued waiter with "new" and replays the trigger with it. -/
theorem refreshSuccessFrame_amended_witness :
    wIdle.store.refreshToken = some ("rt0") ∧
    (completeRefreshSuccess wQueued ("rt0") wTrigger ("new")).state.store.accessToken
      = some ("new") ∧
    (completeRefreshSuccess wQueued ("rt0") wTrigger ("new")).state.store.refreshToken
      = some ("rt0") ∧
    (completeRefreshSuccess wQueued ("rt0") wTrigger ("new")).state.store.user
      = wQueued.store.user ∧
    (completeRefreshSuccess wQueued ("rt0") wTrigger ("new")).replayRequest
      = setAuthHeader wTrigger ("new") ∧
    (completeRefreshSuccess wQueued ("rt0") wTrigger ("new")).state.isRefreshing = false ∧
    (completeRefreshSuccess wQueued ("rt0") wTrigger ("new")).queueOutcomes
      = wQueued.failedQueue.map (fun c => (c, WaiterOutcome.resolved ("new"))) :=
  ⟨refreshSuccessFrame_amended.1 wIdle { wIdle with isRefreshing := true } wErrA
     wTrigger ("rt0") (by decide),
   (refreshSuccessFrame_amended.2 wQueued ("rt0") ("new") wTrigger).1,
   (refreshSuccessFrame_amended.2 wQueued ("rt0") ("new") wTrigger).2.1,
   (refreshSuccessFrame_amended.2 wQueued ("rt0") ("new") wTrigger).2.2.1,
   (refreshSuccessFrame_amended.2 wQueued ("rt0") ("new") wTrigger).2.2.2.1,
   (refreshSuccessFrame_amended.2 wQueued ("rt0") ("new") wTrigger).2.2.2.2.1,
   (refreshSuccessFrame_amended.2 wQueued ("rt0") ("new") wTrigger).2.2.2.2.2 (by decide)⟩

/-- C9 counterexample: a 401 that joins an in-flight refresh is enqueued with
its `_retry` flag still false — the flag is not set on the first 401 of a
queue-joiner, so the claim that `_retry` is set on the first 401 regardless of
trigger/joiner is false. -/
theorem retryMarking_cex :
    (responseOnRejected wRefreshing wErrB).2 = SyncResult.enqueued ∧
    (responseOnRejected wRefreshing wErrB).1.failedQueue = [wReqB] ∧
    wReqB._retry = false ∧
    (responseOnRejected wRefreshing wErrB).1.failedQueue.all (fun c => c._retry) = false := by
  decide

/-- C9 amended: `_retry` is set to true only on the 401 that triggers a fresh
refresh (the request carried into the refresh call is marked); a 401 that joins
an in-flight refresh is pushed onto the queue with its `_retry` flag unchanged,
i.e. still false. -/
theorem retryMarking_amended :
    (∀ (st : ClientState) (e : AxiosErrorModel) (rt : String),
        e.status = some 401 → e.config._retry = false →
        st.store.refreshToken = some rt → rt ≠ "" → st.isRefreshing = false →
        responseOnRejected st e
          = ({ st with isRefreshing := true },
             SyncResult.startRefresh { e.config with _retry := true } rt) ∧
        ({ e.config with _retry := true })._retry = true) ∧
    (∀ (st : ClientState) (e : AxiosErrorModel),
        e.status = some 401 → e.config._retry = false →
        strTruthy st.store.refreshToken = true → st.isRefreshing = true →
        responseOnRejected st e
          = ({ st with failedQueue := st.failedQueue ++ [e.config] }, SyncResult.enqueued) ∧
        e.config._retry = false) := by
  constructor
  · intro st e rt h1 h2 h3 h4 h5
    exact ⟨responseOnRejected_trigger st e rt h1 h2 h3 h4 h5, rfl⟩
  · intro st e h1 h2 h3 h4
    exact ⟨responseOnRejected_enqueue st e h1 h2 h3 h4, h2⟩

/-- Witness for C9 amended: the /subjects 401 triggers the refresh and its
request is marked; the /chapters 401 joins the queue unmarked. -/
theorem retryMarking_amended_witness :
    (responseOnRejected wIdle wErrA
      = ({ wIdle with isRefreshing := true },
         SyncResult.startRefresh { wErrA.config with _retry := true } ("rt0")) ∧
     ({ wErrA.config with _retry := true })._retry = true) ∧
    (responseOnRejected wRefreshing wErrB
      = ({ wRefreshing with failedQueue := wRefreshing.failedQueue ++ [wErrB.config] },
         SyncResult.enqueued) ∧
     wErrB.config._retry = false) :=
  ⟨retryMarking_amended.1 wIdle wErrA ("rt0") rfl rfl rfl (by decide) rfl,
   retryMarking_amended.2 wRefreshing wErrB rfl rfl (by decide) rfl⟩

end DojoBeacon
